import Mathlib

/-!
Verification of the `AbstractControlDirective` delegation contract
(`packages/forms/src/directives/abstract_control_directive.ts`).

The directive itself is embedded directly from the TypeScript source.  The
`AbstractControl` collaborator lives in `packages/forms/src/model.ts`, which is
not part of the provided sources; its operations (`findDescendant`, `hasError`,
`getError`, `reset`) and derived boolean views are modelled from the spec
(sections 3, 4.1 and 9) and are marked `Modelled from the spec:` below.
-/

namespace Forms

/-- Validation status of a control (spec section 3): exactly one of
VALID, INVALID, PENDING, DISABLED is active at a time. -/
inductive Status : Type where
  | VALID
  | INVALID
  | PENDING
  | DISABLED
  deriving DecidableEq, Repr

/-- A JavaScript-style value: `undefined`, `null`, or a proper value of the
payload type `α`.  The TypeScript source types values as `any`, where
`undefined` and `null` are distinct inhabitants. -/
inductive JsValue (α : Type) : Type where
  | undef
  | null
  | val (a : α)
  deriving DecidableEq, Repr

/-- An error mapping: finite association of error codes to error-detail
values of type `ε` (spec section 3: "a mapping from error-code to arbitrary
error-detail"). -/
abbrev ErrorsMap (ε : Type) : Type := List (String × ε)

/-- Modelled from the spec: the `Control` collaborator of spec section 3
(`AbstractControl` in `packages/forms/src/model.ts`, not among the provided
sources).  A control stores a value, a status, an optional error mapping
(absence modelling JavaScript `null`), the `pristine` and `touched`
interaction flags, two notification-stream objects of abstract type `σ`,
a validator function (spec: `reset` "re-derives `status` from validators"),
and named children (composite controls, looked up by segment name). -/
inductive AbstractControl (α ε σ : Type) : Type where
  | mk (value : JsValue α) (status : Status) (errors : Option (ErrorsMap ε))
       (pristine : Bool) (touched : Bool)
       (statusChanges : σ) (valueChanges : σ)
       (validate : JsValue α → Option (ErrorsMap ε))
       (children : List (String × AbstractControl α ε σ))

namespace AbstractControl

variable {α ε σ : Type}

/-- Current data value of the control. -/
def value : AbstractControl α ε σ → JsValue α
  | .mk v _ _ _ _ _ _ _ _ => v

/-- Current validation status of the control. -/
def status : AbstractControl α ε σ → Status
  | .mk _ s _ _ _ _ _ _ _ => s

/-- Error mapping of the control, or `none` when there are no errors. -/
def errors : AbstractControl α ε σ → Option (ErrorsMap ε)
  | .mk _ _ e _ _ _ _ _ _ => e

/-- Whether the user has not yet edited the control. -/
def pristine : AbstractControl α ε σ → Bool
  | .mk _ _ _ p _ _ _ _ _ => p

/-- Whether the user has blurred the control. -/
def touched : AbstractControl α ε σ → Bool
  | .mk _ _ _ _ t _ _ _ _ => t

/-- The control's status-change notification stream object. -/
def statusChanges : AbstractControl α ε σ → σ
  | .mk _ _ _ _ _ sc _ _ _ => sc

/-- The control's value-change notification stream object. -/
def valueChanges : AbstractControl α ε σ → σ
  | .mk _ _ _ _ _ _ vc _ _ => vc

/-- The control's validator: errors produced for a candidate value. -/
def validate : AbstractControl α ε σ → JsValue α → Option (ErrorsMap ε)
  | .mk _ _ _ _ _ _ _ va _ => va

/-- Named child controls of a composite control. -/
def children : AbstractControl α ε σ → List (String × AbstractControl α ε σ)
  | .mk _ _ _ _ _ _ _ _ ch => ch

/-- Modelled from the spec: derived boolean view `valid = status==VALID`
(spec section 3). -/
def valid (c : AbstractControl α ε σ) : Bool := c.status == Status.VALID

/-- Modelled from the spec: derived boolean view `invalid = status==INVALID`. -/
def invalid (c : AbstractControl α ε σ) : Bool := c.status == Status.INVALID

/-- Modelled from the spec: derived boolean view `pending = status==PENDING`. -/
def pending (c : AbstractControl α ε σ) : Bool := c.status == Status.PENDING

/-- Modelled from the spec: derived boolean view `disabled = status==DISABLED`. -/
def disabled (c : AbstractControl α ε σ) : Bool := c.status == Status.DISABLED

/-- Modelled from the spec: derived boolean view `enabled = !disabled`. -/
def enabled (c : AbstractControl α ε σ) : Bool := !c.disabled

/-- Modelled from the spec: `dirty` is the negation of `pristine`
(spec section 3: "pristine/dirty: mutually exclusive flags"). -/
def dirty (c : AbstractControl α ε σ) : Bool := !c.pristine

/-- Modelled from the spec: `untouched` is the negation of `touched`
(spec section 3: "touched/untouched: mutually exclusive flags"). -/
def untouched (c : AbstractControl α ε σ) : Bool := !c.touched

/-- Modelled from the spec: `findDescendant(path) -> Control | absent`
(spec section 3) resolves a sequence of segment names through nested
composite controls, "returning absence if any segment does not resolve";
per sections 4.1 and 9 an empty path resolves to the control itself. -/
def findDescendant : AbstractControl α ε σ → List String → Option (AbstractControl α ε σ)
  | c, [] => some c
  | c, s :: rest =>
    match List.lookup s c.children with
    | none => none
    | some child => findDescendant child rest

/-- Modelled from the spec: the target-resolution rule shared by `hasError`
and `getError` (spec section 4.1): "if `path` is given, resolves it via
`control.findDescendant(path)` starting from the bound control; if `path`
is absent, the target is the bound control itself". -/
def targetOf (c : AbstractControl α ε σ) : Option (List String) → Option (AbstractControl α ε σ)
  | none => some c
  | some p => c.findDescendant p

/-- Modelled from the spec: `AbstractControl.hasError` (spec section 4.1):
"Returns `true` iff the target resolves to a present control whose `errors`
mapping contains `code`.  Returns `false` if unbound, if the path fails to
resolve, or if the code is absent from errors." -/
def hasError (c : AbstractControl α ε σ) (errorCode : String) (path : Option (List String)) : Bool :=
  match targetOf c path with
  | none => false
  | some t =>
    match t.errors with
    | none => false
    | some m => (List.lookup errorCode m).isSome

/-- Modelled from the spec: `AbstractControl.getError` (spec section 4.1):
"same resolution as `hasError`; returns the error-detail value associated
with `code` in the resolved target's `errors` mapping, or `null`/absent if
unresolved, unbound, or code not present." -/
def getError (c : AbstractControl α ε σ) (errorCode : String) (path : Option (List String)) : Option ε :=
  match targetOf c path with
  | none => none
  | some t =>
    match t.errors with
    | none => none
    | some m => List.lookup errorCode m

/-- Modelled from the spec: `AbstractControl.reset` (spec section 3): "sets
`value` (to a supplied value or an absence-default), marks `pristine` and
`untouched`, and re-derives `status` from validators".  The absence-default
is `null`, per the directive's own doc comment (source lines 133-141:
"by default ... value is set to null"); re-derivation runs the control's
validator on the new value and sets INVALID exactly when it reports errors.
Streams, validator and children are untouched. -/
def reset (c : AbstractControl α ε σ) (v : JsValue α) : AbstractControl α ε σ :=
  let v' : JsValue α :=
    match v with
    | JsValue.undef => JsValue.null
    | x => x
  let es : Option (ErrorsMap ε) := c.validate v'
  AbstractControl.mk v'
    (match es with
     | none => Status.VALID
     | some _ => Status.INVALID)
    es true false c.statusChanges c.valueChanges c.validate c.children

end AbstractControl

/-- The directive of `abstract_control_directive.ts`: a binding holding a
reference to an `AbstractControl` or no control (`control(): AbstractControl|null`,
source line 26).  Per spec section 3 it has no other stored state. -/
structure AbstractControlDirective (α ε σ : Type) : Type where
  control : Option (AbstractControl α ε σ)

namespace AbstractControlDirective

variable {α ε σ : Type}

/-- Source line 29: `get value() { return this.control ? this.control.value : null; }`. -/
def value (b : AbstractControlDirective α ε σ) : JsValue α :=
  match b.control with
  | some c => c.value
  | none => JsValue.null

/-- Source line 37: `get valid() { return this.control ? this.control.valid : null; }`. -/
def valid (b : AbstractControlDirective α ε σ) : Option Bool :=
  match b.control with
  | some c => some c.valid
  | none => none

/-- Source line 45: `get invalid() { return this.control ? this.control.invalid : null; }`. -/
def invalid (b : AbstractControlDirective α ε σ) : Option Bool :=
  match b.control with
  | some c => some c.invalid
  | none => none

/-- Source line 53: `get pending() { return this.control ? this.control.pending : null; }`. -/
def pending (b : AbstractControlDirective α ε σ) : Option Bool :=
  match b.control with
  | some c => some c.pending
  | none => none

/-- Source line 62: `get disabled() { return this.control ? this.control.disabled : null; }`. -/
def disabled (b : AbstractControlDirective α ε σ) : Option Bool :=
  match b.control with
  | some c => some c.disabled
  | none => none

/-- Source line 70: `get enabled() { return this.control ? this.control.enabled : null; }`. -/
def enabled (b : AbstractControlDirective α ε σ) : Option Bool :=
  match b.control with
  | some c => some c.enabled
  | none => none

/-- Source line 76: `get errors() { return this.control ? this.control.errors : null; }`. -/
def errors (b : AbstractControlDirective α ε σ) : Option (ErrorsMap ε) :=
  match b.control with
  | some c => c.errors
  | none => none

/-- Source line 85: `get pristine() { return this.control ? this.control.pristine : null; }`. -/
def pristine (b : AbstractControlDirective α ε σ) : Option Bool :=
  match b.control with
  | some c => some c.pristine
  | none => none

/-- Source line 94: `get dirty() { return this.control ? this.control.dirty : null; }`. -/
def dirty (b : AbstractControlDirective α ε σ) : Option Bool :=
  match b.control with
  | some c => some c.dirty
  | none => none

/-- Source line 100: `get touched() { return this.control ? this.control.touched : null; }`. -/
def touched (b : AbstractControlDirective α ε σ) : Option Bool :=
  match b.control with
  | some c => some c.touched
  | none => none

/-- Source line 102: `get status() { return this.control ? this.control.status : null; }`. -/
def status (b : AbstractControlDirective α ε σ) : Option Status :=
  match b.control with
  | some c => some c.status
  | none => none

/-- Source line 108: `get untouched() { return this.control ? this.control.untouched : null; }`. -/
def untouched (b : AbstractControlDirective α ε σ) : Option Bool :=
  match b.control with
  | some c => some c.untouched
  | none => none

/-- Source lines 114-116: `get statusChanges() { return this.control ? this.control.statusChanges : null; }`. -/
def statusChanges (b : AbstractControlDirective α ε σ) : Option σ :=
  match b.control with
  | some c => some c.statusChanges
  | none => none

/-- Source lines 122-124: `get valueChanges() { return this.control ? this.control.valueChanges : null; }`. -/
def valueChanges (b : AbstractControlDirective α ε σ) : Option σ :=
  match b.control with
  | some c => some c.valueChanges
  | none => none

/-- Source line 131: `get path(): string[]|null { return null; }`. -/
def path (_ : AbstractControlDirective α ε σ) : Option (List String) := none

/-- Source lines 142-144: `reset(value: any = undefined): void { if (this.control) this.control.reset(value); }`.
The mutation is rendered by returning the updated binding state. -/
def reset (b : AbstractControlDirective α ε σ) (v : JsValue α) : AbstractControlDirective α ε σ :=
  match b.control with
  | some c => ⟨some (c.reset v)⟩
  | none => b

/-- Source line 142: the `reset` parameter defaults to `undefined`, so a
call with no argument is a call with `undefined`. -/
def resetDefault (b : AbstractControlDirective α ε σ) : AbstractControlDirective α ε σ :=
  b.reset JsValue.undef

/-- Source lines 152-154: `hasError(errorCode, path?) { return this.control ? this.control.hasError(errorCode, path) : false; }`. -/
def hasError (b : AbstractControlDirective α ε σ) (errorCode : String)
    (path : Option (List String)) : Bool :=
  match b.control with
  | some c => c.hasError errorCode path
  | none => false

/-- Source lines 162-164: `getError(errorCode, path?) { return this.control ? this.control.getError(errorCode, path) : null; }`. -/
def getError (b : AbstractControlDirective α ε σ) (errorCode : String)
    (path : Option (List String)) : Option ε :=
  match b.control with
  | some c => c.getError errorCode path
  | none => none

end AbstractControlDirective

/-- Example leaf control: value 5, invalid with a `required` error. -/
def exControl : AbstractControl Nat Nat Nat :=
  AbstractControl.mk (JsValue.val 5) Status.INVALID (some [("required", 1)])
    true false 0 1 (fun _ => none) []

/-- Example zip-code leaf control carrying a `pattern` error. -/
def zipControl : AbstractControl Nat Nat Nat :=
  AbstractControl.mk (JsValue.val 3) Status.INVALID (some [("pattern", 5)])
    true false 2 3 (fun _ => none) []

/-- Example composite control with a descendant at path `["address", "zip"]`. -/
def treeControl : AbstractControl Nat Nat Nat :=
  AbstractControl.mk JsValue.null Status.INVALID none true false 4 5 (fun _ => none)
    [("address",
      AbstractControl.mk JsValue.null Status.INVALID none true false 6 7 (fun _ => none)
        [("zip", zipControl)])]

/-- Example bound binding. -/
def exBound : AbstractControlDirective Nat Nat Nat := ⟨some exControl⟩

/-- Second binding bound to the same control state as `exBound`. -/
def exBound2 : AbstractControlDirective Nat Nat Nat := ⟨some exControl⟩

/-- Example binding bound to the composite control. -/
def treeBound : AbstractControlDirective Nat Nat Nat := ⟨some treeControl⟩

/-- Example unbound binding. -/
def unboundACD : AbstractControlDirective Nat Nat Nat := ⟨none⟩

end Forms

namespace Forms

theorem AbstractControl.hasError_eq_isSome {α ε σ : Type} (c : AbstractControl α ε σ)
    (code : String) (path : Option (List String)) :
    c.hasError code path = (c.getError code path).isSome := by
  unfold AbstractControl.hasError AbstractControl.getError
  cases AbstractControl.targetOf c path with
  | none => rfl
  | some t =>
    cases h : AbstractControl.errors t with
    | none => simp [h]
    | some m => simp [h]

theorem AbstractControl.hasError_true_iff {α ε σ : Type} (c : AbstractControl α ε σ)
    (code : String) (path : Option (List String)) :
    c.hasError code path = true ↔
      ∃ t m, AbstractControl.targetOf c path = some t ∧ AbstractControl.errors t = some m ∧
        (List.lookup code m).isSome = true := by
  unfold AbstractControl.hasError
  cases ht : AbstractControl.targetOf c path with
  | none => simp
  | some t =>
    cases he : AbstractControl.errors t with
    | none => simp [he]
    | some m => simp [he]

theorem AbstractControl.getError_eq_of {α ε σ : Type} (c t : AbstractControl α ε σ)
    (m : ErrorsMap ε) (code : String) (path : Option (List String))
    (h1 : AbstractControl.targetOf c path = some t)
    (h2 : AbstractControl.errors t = some m) :
    c.getError code path = List.lookup code m := by
  simp only [AbstractControl.getError, h1, h2]

theorem AbstractControl.getError_none_of_hasError_false {α ε σ : Type}
    (c : AbstractControl α ε σ) (code : String) (path : Option (List String))
    (h : c.hasError code path = false) :
    c.getError code path = none := by
  rw [AbstractControl.hasError_eq_isSome] at h
  cases hg : c.getError code path with
  | none => rfl
  | some v => rw [hg] at h; exact Bool.noConfusion h

/-- C1: for every binding, error code and path argument, `hasError(code, path)`
returns `true` iff the target control — the bound control's descendant at
`path` when a path is given, the bound control itself when it is absent —
resolves to a present control whose errors mapping contains the code; it
returns `false` when the binding is unbound, when a path segment fails to
resolve, or when the code is absent from the resolved control's errors. -/
theorem hasError_correct {α ε σ : Type} (b : AbstractControlDirective α ε σ)
    (code : String) (path : Option (List String)) :
    (b.hasError code path = true ↔
      ∃ c t m, b.control = some c ∧ AbstractControl.targetOf c path = some t ∧
        AbstractControl.errors t = some m ∧ (List.lookup code m).isSome = true)
    ∧ (b.control = none → b.hasError code path = false) := by
  rcases b with ⟨_ | c⟩
  · refine ⟨⟨fun h => Bool.noConfusion h, ?_⟩, fun _ => rfl⟩
    rintro ⟨c, t, m, hc, -, -, -⟩
    exact Option.noConfusion hc
  · refine ⟨?_, fun hn => Option.noConfusion hn⟩
    constructor
    · intro h
      obtain ⟨t, m, h1, h2, h3⟩ := (AbstractControl.hasError_true_iff c code path).mp h
      exact ⟨c, t, m, rfl, h1, h2, h3⟩
    · rintro ⟨c', t, m, hc, h1, h2, h3⟩
      obtain rfl : c = c' := Option.some.inj hc
      exact (AbstractControl.hasError_true_iff c code path).mpr ⟨t, m, h1, h2, h3⟩

/-- C1 witness: on an unbound binding, `hasError` is `false`. -/
theorem hasError_correct_witness :
    AbstractControlDirective.hasError unboundACD "required" none = false :=
  (hasError_correct unboundACD "required" none).2 rfl

/-- C2: when the control is absent, every accessor returns its neutral
default (`null` for `value`, `none` for the other getters and `path`),
`hasError` returns `false`, `getError` returns `none`, and `reset` leaves
the binding unchanged — none of these calls fails. -/
theorem unbound_defaults {α ε σ : Type} (b : AbstractControlDirective α ε σ)
    (h : b.control = none) (code : String) (path : Option (List String)) (v : JsValue α) :
    b.value = JsValue.null ∧ b.valid = none ∧ b.invalid = none ∧ b.pending = none
    ∧ b.disabled = none ∧ b.enabled = none ∧ b.pristine = none ∧ b.dirty = none
    ∧ b.touched = none ∧ b.untouched = none ∧ b.status = none ∧ b.errors = none
    ∧ b.statusChanges = none ∧ b.valueChanges = none ∧ b.path = none
    ∧ b.hasError code path = false ∧ b.getError code path = none
    ∧ b.reset v = b := by
  rcases b with ⟨_ | c⟩
  · exact ⟨rfl, rfl, rfl, rfl, rfl, rfl, rfl, rfl, rfl, rfl, rfl, rfl, rfl, rfl, rfl,
      rfl, rfl, rfl⟩
  · exact Option.noConfusion h

/-- C2 witness: the unbound example binding yields the default `value`. -/
theorem unbound_defaults_witness :
    AbstractControlDirective.value unboundACD = JsValue.null :=
  (unbound_defaults unboundACD rfl "required" none (JsValue.val 3)).1

/-- C3: `getError(code, path)` returns exactly the error detail stored at
`errors[code]` of the control resolved by the same rule as `hasError`, and
returns `none` whenever `hasError(code, path)` returns `false` (unbound,
unresolved path, or code not present). -/
theorem getError_correct {α ε σ : Type} (b : AbstractControlDirective α ε σ)
    (code : String) (path : Option (List String)) :
    (∀ c t m, b.control = some c → AbstractControl.targetOf c path = some t →
      AbstractControl.errors t = some m →
      b.getError code path = List.lookup code m)
    ∧ (b.hasError code path = false → b.getError code path = none) := by
  rcases b with ⟨_ | c⟩
  · refine ⟨fun c t m hc _ _ => Option.noConfusion hc, fun _ => rfl⟩
  · refine ⟨?_, ?_⟩
    · intro c' t m hc h1 h2
      obtain rfl : c = c' := Option.some.inj hc
      exact AbstractControl.getError_eq_of c t m code path h1 h2
    · intro h
      exact AbstractControl.getError_none_of_hasError_false c code path h

/-- C3 witness: the composite example's zip-code error detail is retrieved
through the path `["address", "zip"]`. -/
theorem getError_correct_witness :
    AbstractControlDirective.getError treeBound "pattern" (some ["address", "zip"]) =
      List.lookup "pattern" [("pattern", (5 : Nat))] :=
  (getError_correct treeBound "pattern" (some ["address", "zip"])).1 treeControl zipControl
    [("pattern", 5)] rfl rfl rfl

/-- C4: when bound, each accessor returns exactly the corresponding field of
the bound control, and `statusChanges`/`valueChanges` return the control's
very stream objects. -/
theorem bound_accessors_project {α ε σ : Type} (b : AbstractControlDirective α ε σ)
    (c : AbstractControl α ε σ) (h : b.control = some c) :
    b.value = c.value ∧ b.valid = some c.valid ∧ b.invalid = some c.invalid
    ∧ b.pending = some c.pending ∧ b.disabled = some c.disabled
    ∧ b.enabled = some c.enabled ∧ b.pristine = some c.pristine
    ∧ b.dirty = some c.dirty ∧ b.touched = some c.touched
    ∧ b.untouched = some c.untouched ∧ b.status = some c.status
    ∧ b.errors = c.errors ∧ b.statusChanges = some c.statusChanges
    ∧ b.valueChanges = some c.valueChanges := by
  rcases b with ⟨_ | c'⟩
  · exact Option.noConfusion h
  · obtain rfl : c' = c := Option.some.inj h
    exact ⟨rfl, rfl, rfl, rfl, rfl, rfl, rfl, rfl, rfl, rfl, rfl, rfl, rfl, rfl⟩

/-- C4 witness: the bound example binding projects the control's value. -/
theorem bound_accessors_project_witness :
    AbstractControlDirective.value exBound = AbstractControl.value exControl :=
  (bound_accessors_project exBound exControl rfl).1

/-- C5: passing an empty sequence as `path` to `hasError` or `getError`
yields the same result as passing no path at all — both operate on the
bound control itself. -/
theorem empty_path_eq_absent_path {α ε σ : Type} (b : AbstractControlDirective α ε σ)
    (code : String) :
    b.hasError code (some []) = b.hasError code none
    ∧ b.getError code (some []) = b.getError code none := by
  rcases b with ⟨_ | c⟩
  · exact ⟨rfl, rfl⟩
  · exact ⟨rfl, rfl⟩

/-- C6: every accessor and operation of the binding is total: for every
binding state, bound or unbound, and every argument, the call completes —
delegating to the bound control when present, and degrading to its
documented safe default when the control is absent. -/
theorem operations_total {α ε σ : Type} (b : AbstractControlDirective α ε σ)
    (code : String) (path : Option (List String)) (v : JsValue α) :
    (b.control = none ∧ b.value = JsValue.null ∧ b.valid = none ∧ b.invalid = none
      ∧ b.pending = none ∧ b.disabled = none ∧ b.enabled = none ∧ b.pristine = none
      ∧ b.dirty = none ∧ b.touched = none ∧ b.untouched = none ∧ b.status = none
      ∧ b.errors = none ∧ b.statusChanges = none ∧ b.valueChanges = none
      ∧ b.path = none ∧ b.hasError code path = false ∧ b.getError code path = none
      ∧ b.reset v = b)
    ∨ (∃ c, b.control = some c ∧ b.value = c.value ∧ b.valid = some c.valid
      ∧ b.invalid = some c.invalid ∧ b.pending = some c.pending
      ∧ b.disabled = some c.disabled ∧ b.enabled = some c.enabled
      ∧ b.pristine = some c.pristine ∧ b.dirty = some c.dirty
      ∧ b.touched = some c.touched ∧ b.untouched = some c.untouched
      ∧ b.status = some c.status ∧ b.errors = c.errors
      ∧ b.statusChanges = some c.statusChanges ∧ b.valueChanges = some c.valueChanges
      ∧ b.path = none ∧ b.hasError code path = c.hasError code path
      ∧ b.getError code path = c.getError code path
      ∧ b.reset v = ⟨some (c.reset v)⟩) := by
  rcases b with ⟨_ | c⟩
  · exact Or.inl ⟨rfl, rfl, rfl, rfl, rfl, rfl, rfl, rfl, rfl, rfl, rfl, rfl, rfl, rfl,
      rfl, rfl, rfl, rfl, rfl⟩
  · exact Or.inr ⟨c, rfl, rfl, rfl, rfl, rfl, rfl, rfl, rfl, rfl, rfl, rfl, rfl, rfl,
      rfl, rfl, rfl, rfl, rfl, rfl⟩

/-- C7: when bound, `reset(v)` delegates exactly to `control.reset(v)`; the
whole side effect lives in the control (flags restored to pristine and
untouched, streams, validator and children untouched), and the binding
still references that same — now reset — control. -/
theorem reset_delegates {α ε σ : Type} (b : AbstractControlDirective α ε σ)
    (c : AbstractControl α ε σ) (h : b.control = some c) (v : JsValue α) :
    b.reset v = ⟨some (c.reset v)⟩
    ∧ (b.reset v).control = some (c.reset v)
    ∧ (c.reset v).pristine = true
    ∧ (c.reset v).touched = false
    ∧ (c.reset v).children = c.children
    ∧ (c.reset v).statusChanges = c.statusChanges
    ∧ (c.reset v).valueChanges = c.valueChanges
    ∧ (c.reset v).validate = c.validate := by
  rcases b with ⟨_ | c'⟩
  · exact Option.noConfusion h
  · obtain rfl : c' = c := Option.some.inj h
    exact ⟨rfl, rfl, rfl, rfl, rfl, rfl, rfl, rfl⟩

/-- C7 witness: resetting the bound example binding yields exactly the
binding holding the reset control. -/
theorem reset_delegates_witness :
    AbstractControlDirective.reset exBound (JsValue.val 7) =
      ⟨some (AbstractControl.reset exControl (JsValue.val 7))⟩ :=
  (reset_delegates exBound exControl rfl (JsValue.val 7)).1

/-- C8: the abstract base's `path` accessor returns `null` unconditionally,
for every binding state, including when a control is bound. -/
theorem path_always_none {α ε σ : Type} (b : AbstractControlDirective α ε σ) :
    b.path = none := rfl

/-- C9: every accessor and `hasError`/`getError` is a deterministic
projection of the control reference: two bindings with the same control
state give equal results on every read operation, and `reset` — the only
state-changing operation — only transforms the referenced control in place,
never replacing or clearing the reference. -/
theorem read_only_deterministic {α ε σ : Type} (b1 b2 : AbstractControlDirective α ε σ)
    (h : b1.control = b2.control) (code : String) (path : Option (List String))
    (v : JsValue α) :
    b1.value = b2.value ∧ b1.valid = b2.valid ∧ b1.invalid = b2.invalid
    ∧ b1.pending = b2.pending ∧ b1.disabled = b2.disabled ∧ b1.enabled = b2.enabled
    ∧ b1.pristine = b2.pristine ∧ b1.dirty = b2.dirty ∧ b1.touched = b2.touched
    ∧ b1.untouched = b2.untouched ∧ b1.status = b2.status ∧ b1.errors = b2.errors
    ∧ b1.statusChanges = b2.statusChanges ∧ b1.valueChanges = b2.valueChanges
    ∧ b1.path = b2.path ∧ b1.hasError code path = b2.hasError code path
    ∧ b1.getError code path = b2.getError code path
    ∧ (b1.reset v).control = Option.map (fun c => c.reset v) b1.control := by
  rcases b1 with ⟨o1⟩
  rcases b2 with ⟨o2⟩
  obtain rfl : o1 = o2 := h
  refine ⟨rfl, rfl, rfl, rfl, rfl, rfl, rfl, rfl, rfl, rfl, rfl, rfl, rfl, rfl, rfl,
    rfl, rfl, ?_⟩
  cases o1 with
  | none => rfl
  | some c => rfl

/-- C9 witness: two bindings bound to the same control state agree on `value`. -/
theorem read_only_deterministic_witness :
    AbstractControlDirective.value exBound = AbstractControlDirective.value exBound2 :=
  (read_only_deterministic exBound exBound2 rfl "required" none (JsValue.val 0)).1

/-- C10: calling `reset` with no argument equals calling it with
`undefined` — the parameter's default is `undefined`, not `null` — so a
bound control receives `undefined` in both cases, while `reset(null)`
forwards `null`, a distinct argument. -/
theorem reset_default_is_undefined {α ε σ : Type} (b : AbstractControlDirective α ε σ)
    (c : AbstractControl α ε σ) (h : b.control = some c) :
    b.resetDefault = b.reset JsValue.undef
    ∧ b.resetDefault = ⟨some (c.reset JsValue.undef)⟩
    ∧ b.reset JsValue.null = ⟨some (c.reset JsValue.null)⟩
    ∧ (JsValue.undef : JsValue α) ≠ JsValue.null := by
  rcases b with ⟨_ | c'⟩
  · exact Option.noConfusion h
  · obtain rfl : c' = c := Option.some.inj h
    exact ⟨rfl, rfl, rfl, fun hx => JsValue.noConfusion hx⟩

/-- C10 witness: on the bound example, the no-argument `reset` equals
`reset undefined`. -/
theorem reset_default_is_undefined_witness :
    AbstractControlDirective.resetDefault exBound =
      AbstractControlDirective.reset exBound JsValue.undef :=
  (reset_default_is_undefined exBound exControl rfl).1

end Forms
